import Mathlib

/-!
Shallow embedding of the MQTT-to-MongoDB logger (`src/app/main.py`) and
proofs about it.  The Python script receives MQTT messages, decodes each
payload as UTF-8, parses it as JSON, and inserts a document
`{topic, date, time, payload}` into the MongoDB collection named by the
receipt date.  Startup connects to MongoDB and to the MQTT broker, each in
an unbounded fixed-interval retry loop.

The embedding keeps the source's structure: exceptions become an
`Option HandlerError` component of the result, side effects (inserted
documents, log lines, sleeps, client actions) become explicit traces, and
the external collaborators (`bytes.decode("utf-8")`, `json.loads`, the
MongoDB server, the broker) become function parameters or boolean outcome
parameters.
-/

/-- A JSON value as produced by `json.loads`. -/
inductive Json where
  | null
  | bool (b : Bool)
  | num (n : Int)
  | str (s : String)
  | arr (xs : List Json)
  | obj (kvs : List (String × Json))

/-- Log levels used by the script (`logger.info` / `logger.error`). -/
inductive LogLevel where
  | info
  | error
deriving DecidableEq, Repr

/-- The distinct log lines the script can emit, one constructor per
`logger.info`/`logger.error` call site, carrying the dynamic parts of the
corresponding f-string. -/
inductive LogMsg where
  | connectingMongo (uri : String)
  | connectedMongo
  | mongoServerDown
  | retryingMongo
  | connectingMqtt (addr : String)
  | connectedMqtt
  | mqttConnTimeout
  | mqttConnRefused
  | retryingMqtt
  | messageStored (topic time_ payloadText : String)
deriving DecidableEq, Repr

/-- One line emitted to the logging sink. -/
structure LogEntry where
  level : LogLevel
  msg : LogMsg
deriving DecidableEq, Repr

/-- An incoming MQTT message: the concrete topic it arrived on and the raw
payload bytes (`message.topic`, `message.payload`). -/
structure MQTTMessage where
  topic : String
  payload : List Nat
deriving DecidableEq, Repr

/-- A wall-clock instant (local time), as read by `time.strftime` at
receipt. -/
structure Instant where
  year : Nat
  month : Nat
  day : Nat
  hour : Nat
  minute : Nat
  second : Nat
deriving DecidableEq, Repr

/-- Zero-pad a number to two digits, as `strftime` does for
`%m %d %H %M %S`. -/
def pad2 (n : Nat) : String :=
  if n < 10 then "0" ++ toString n else toString n

/-- Zero-pad a number to four digits, as `strftime` does for `%Y`. -/
def pad4 (n : Nat) : String :=
  if n < 10 then "000" ++ toString n
  else if n < 100 then "00" ++ toString n
  else if n < 1000 then "0" ++ toString n
  else toString n

/-- Rendering of `time.strftime("%Y-%m-%d")` at the given instant. -/
def strftimeDate (t : Instant) : String :=
  pad4 t.year ++ "-" ++ pad2 t.month ++ "-" ++ pad2 t.day

/-- Rendering of `time.strftime("%H:%M:%S")` at the given instant. -/
def strftimeTime (t : Instant) : String :=
  pad2 t.hour ++ ":" ++ pad2 t.minute ++ ":" ++ pad2 t.second

/-- The document built by `on_message` (`src/app/main.py` lines 181-186). -/
structure Document where
  topic : String
  date : String
  time : String
  payload : Json

/-- The exceptions that can escape `on_message`: `UnicodeDecodeError` from
`message.payload.decode("utf-8")`, `json.JSONDecodeError` from
`json.loads`, and a pymongo write failure from `insert_one`. -/
inductive HandlerError where
  | decodeError
  | jsonError
  | writeError
deriving DecidableEq, Repr

/-- The observable result of one `on_message` invocation: the documents
inserted (paired with the name of the collection each went into), the log
lines emitted, and the exception that escaped the handler, if any. -/
structure HandlerResult where
  inserted : List (String × Document)
  logs : List LogEntry
  exc : Option HandlerError

/-- The success log line of `on_message` (line 192):
`f"Topic: {topic} | Time: {time_} | Payload: {payload}"`. -/
def successRecord (topic time_ payloadText : String) : LogEntry :=
  ⟨.info, .messageStored topic time_ payloadText⟩

/-- The handler `on_message` (`src/app/main.py` lines 146-192).  `decodeUtf8` stands for
`bytes.decode("utf-8")` and `parseJson` for `json.loads` (standard-library
collaborators); `none` from either is the exception the library raises.
`insertOk` says whether `collection.insert_one` succeeds against the
database; `now` is the wall clock read by the two `time.strftime` calls.
The function body has no try/except: the first failing step aborts the
handler with that exception, and later effects (the insert, the success
log line) do not happen. -/
def on_message (decodeUtf8 : List Nat → Option String)
    (parseJson : String → Option Json)
    (insertOk : Bool)
    (message : MQTTMessage) (now : Instant) : HandlerResult :=
  match decodeUtf8 message.payload with
  | none => ⟨[], [], some .decodeError⟩
  | some payload =>
    let date := strftimeDate now
    let time_ := strftimeTime now
    match parseJson payload with
    | none => ⟨[], [], some .jsonError⟩
    | some value =>
      let document : Document :=
        { topic := message.topic, date := date, time := time_, payload := value }
      if insertOk then
        ⟨[(date, document)], [successRecord message.topic time_ payload], none⟩
      else
        ⟨[], [], some .writeError⟩

/-- ASCII instance of the UTF-8 decoder, used to evaluate the model at
concrete inputs: ASCII is exactly the one-byte fragment of UTF-8, so on
all-ASCII byte strings this agrees with `bytes.decode("utf-8")`, and any
byte above 0x7F is conservatively rejected. -/
def decodeAscii (bs : List Nat) : Option String :=
  if bs.all (· < 128) then some (String.mk (bs.map Char.ofNat)) else none

/-- The ASCII bytes of a string (meaningful when the string is ASCII). -/
def asciiBytes (s : String) : List Nat :=
  s.data.map Char.toNat

/-- Literal fragment of the JSON grammar (null, booleans, non-negative
integers, escape-free quoted strings), used to evaluate the model at
concrete inputs; agrees with `json.loads` on this fragment and rejects
everything else. -/
def parseJsonLit (s : String) : Option Json :=
  let cs := s.data
  if cs = "null".data then some .null
  else if cs = "true".data then some (.bool true)
  else if cs = "false".data then some (.bool false)
  else if cs ≠ [] ∧ cs.all Char.isDigit then
    some (.num (cs.foldl (fun a c => a * 10 + (c.toNat - 48)) 0))
  else if 2 ≤ cs.length ∧ cs.head? = some '"' ∧ cs.getLast? = some '"'
      ∧ (cs.drop 1).dropLast.all (fun c => c ≠ '"' ∧ c ≠ '\\') then
    some (.str (String.mk ((cs.drop 1).dropLast)))
  else none

example : decodeAscii (asciiBytes "not-json") = some "not-json" := by decide
example : parseJsonLit "not-json" = none := rfl
example : parseJsonLit "42" = some (.num 42) := rfl

/-- The configuration record produced by the argument parser
(`src/app/main.py` lines 195-223). -/
structure Config where
  mongodbHost : String
  mongodbPort : Nat
  mongodbUsername : String
  mongodbPassword : String
  mongodbDatabase : String
  mqttHost : String
  mqttPort : Nat
  mqttUsername : String
  mqttPassword : String
  mqttTopics : List String
deriving DecidableEq, Repr

/-- The argparse defaults. -/
def defaultConfig : Config :=
  { mongodbHost := "localhost", mongodbPort := 27017,
    mongodbUsername := "devasheesh", mongodbPassword := "swastik123",
    mongodbDatabase := "mqtt_logs",
    mqttHost := "localhost", mqttPort := 1883,
    mqttUsername := "mosquitto", mqttPassword := "mosquitto",
    mqttTopics := ["#"] }

/-- The database handle returned by `connect_to_mongodb`
(`client[cli_args.mongodb_database]`), identified by the database it
addresses. -/
structure DBHandle where
  databaseName : String
deriving DecidableEq, Repr

/-- The pymongo calls `connect_to_mongodb` makes against the driver:
`pymongo.MongoClient(uri)` (builds the client, no I/O) and
`client.server_info()` (the liveness round trip, which raises
`ServerSelectionTimeoutError` when the server is unreachable or the
selection times out). -/
inductive MongoAction where
  | clientCreate
  | serverInfoPing
deriving DecidableEq, Repr

/-- The connection URI built at `src/app/main.py` line 92. -/
def connectionUri (cfg : Config) : String :=
  "mongodb://" ++ cfg.mongodbUsername ++ ":" ++ cfg.mongodbPassword ++ "@"
    ++ cfg.mongodbHost ++ ":" ++ toString cfg.mongodbPort

/-- The function `connect_to_mongodb` (`src/app/main.py` lines 81-106).  `serverReachable`
is the outcome of the driver round trip: when `false`, `server_info()`
raises `ServerSelectionTimeoutError`, which the function catches, logging
one error and returning `None`.  The result also carries the log lines
emitted and the trace of driver calls made (one client creation, one ping
— the function itself never retries). -/
def connect_to_mongodb (serverReachable : Bool) (cfg : Config) :
    Option DBHandle × List LogEntry × List MongoAction :=
  let logs0 := [⟨.info, .connectingMongo (connectionUri cfg)⟩]
  let actions := [MongoAction.clientCreate, MongoAction.serverInfoPing]
  if serverReachable then
    (some ⟨cfg.mongodbDatabase⟩, logs0 ++ [⟨.info, .connectedMongo⟩], actions)
  else
    (none, logs0 ++ [⟨.error, .mongoServerDown⟩], actions)

/-- Outcome of one `client.connect(host, port)` call in `connect_to_mqtt`:
success, or one of the two exceptions the function catches. -/
inductive MqttConnectOutcome where
  | ok
  | timeout
  | refused
deriving DecidableEq, Repr

/-- The `userdata` dict installed by `client.user_data_set` (lines 250-253):
both keys are always set together. -/
structure UserData where
  db : DBHandle
  loggerSet : Bool
deriving DecidableEq, Repr

/-- The paho client state as configured by this script: the constructor
arguments of line 124, the session subscription set, the installed
userdata, and which callbacks were registered.  The script never assigns
`client.on_connect`, so `onConnectSet` can only be `false` here. -/
structure MqttClientState where
  clientId : String
  cleanSession : Bool
  onConnectSet : Bool
  subscriptions : List String
  userdata : Option UserData
  onMessageSet : Bool
deriving DecidableEq, Repr

/-- The client as built at `src/app/main.py` line 124:
`mqtt.Client(client_id="mongodb_logger", clean_session=True)`, with no
subscriptions, no userdata and no callbacks yet. -/
def initialMqttClient : MqttClientState :=
  { clientId := "mongodb_logger", cleanSession := true,
    onConnectSet := false, subscriptions := [],
    userdata := none, onMessageSet := false }

/-- The function `connect_to_mqtt` (`src/app/main.py` lines 109-143): builds a client
with `client_id="mongodb_logger", clean_session=True`, attempts one
connect, and returns the client on success or `None` (after logging one
error) on `TimeoutError` or `ConnectionRefusedError`. -/
def connect_to_mqtt (outcome : MqttConnectOutcome) (cfg : Config) :
    Option MqttClientState × List LogEntry :=
  let logs0 := [⟨.info, .connectingMqtt (cfg.mqttHost ++ ":"
                  ++ toString cfg.mqttPort)⟩]
  match outcome with
  | .ok => (some initialMqttClient, logs0 ++ [⟨.info, .connectedMqtt⟩])
  | .timeout => (none, logs0 ++ [⟨.error, .mqttConnTimeout⟩])
  | .refused => (none, logs0 ++ [⟨.error, .mqttConnRefused⟩])

/-- The startup retry loop shape shared by both connections
(`src/app/main.py` lines 230-235 and 238-243):

    while True:
        h = connect(...)
        if h is not None: break
        logger.info(retryMsg)
        time.sleep(5)

The loop is driven by the list of per-attempt connect outcomes; it returns
the handle obtained at the first successful attempt, the log lines emitted
up to and including that attempt, and the trace of sleep durations (the
constant 5 between consecutive attempts).  `none` means no attempt in the
given window succeeded, i.e. the loop is still running. -/
def retryLoop {α H : Type} (connect : α → Option H × List LogEntry)
    (retryMsg : LogMsg) : List α → Option (H × List LogEntry × List Nat)
  | [] => none
  | o :: rest =>
    match connect o with
    | (some h, logs) => some (h, logs, [])
    | (none, logs) =>
      match retryLoop connect retryMsg rest with
      | none => none
      | some (h, logs2, sleeps) =>
          some (h, logs ++ ⟨.info, retryMsg⟩ :: logs2, 5 :: sleeps)

/-- View of `connect_to_mongodb` as seen by the retry loop: the handle and the log
lines of one attempt. -/
def mongoConnectFn (cfg : Config) (r : Bool) :
    Option DBHandle × List LogEntry :=
  ((connect_to_mongodb r cfg).1, (connect_to_mongodb r cfg).2.1)

/-- View of `connect_to_mqtt` as seen by the retry loop. -/
def mqttConnectFn (cfg : Config) (o : MqttConnectOutcome) :
    Option MqttClientState × List LogEntry :=
  connect_to_mqtt o cfg

/-- The MongoDB startup loop (`src/app/main.py` lines 230-235). -/
def mongoStartupLoop (cfg : Config) (outcomes : List Bool) :
    Option (DBHandle × List LogEntry × List Nat) :=
  retryLoop (mongoConnectFn cfg) .retryingMongo outcomes

/-- The MQTT startup loop (`src/app/main.py` lines 238-243). -/
def mqttStartupLoop (cfg : Config) (outcomes : List MqttConnectOutcome) :
    Option (MqttClientState × List LogEntry × List Nat) :=
  retryLoop (mqttConnectFn cfg) .retryingMqtt outcomes

/-- What the supervisor holds when it reaches `client.loop_forever()`. -/
structure SupervisorState where
  db : DBHandle
  client : MqttClientState
deriving DecidableEq, Repr

/-- The `__main__` startup sequence (`src/app/main.py` lines 229-259): run
the MongoDB retry loop, then the MQTT retry loop, then subscribe to each
configured topic, install the userdata `{"db": db, "logger": logger}`, set
`on_message`, and enter `loop_forever()`.  The result is the state at the
moment the receive loop is entered, or `none` while either retry loop is
still running. -/
def main_startup (cfg : Config) (mongoOutcomes : List Bool)
    (mqttOutcomes : List MqttConnectOutcome) : Option SupervisorState :=
  match mongoStartupLoop cfg mongoOutcomes with
  | none => none
  | some (db, _, _) =>
    match mqttStartupLoop cfg mqttOutcomes with
    | none => none
    | some (client, _, _) =>
      let client := { client with
        subscriptions := client.subscriptions ++ cfg.mqttTopics }
      let client := { client with userdata := some ⟨db, true⟩ }
      let client := { client with onMessageSet := true }
      some ⟨db, client⟩

/-- Modelled from the spec: the broker session semantics are outside
`src/` (they live in the broker and the paho client), and the spec states
that "a dropped-and-restored session starts with no implicit
subscriptions".  So after a drop and a successful reconnect, a
clean-session client holds only the subscriptions re-issued by a
registered on-connect callback (the configured topics when such a callback
was installed, nothing otherwise); a non-clean session would keep its
subscription set. -/
def subscriptionsAfterReconnect (c : MqttClientState)
    (configured : List String) : List String :=
  if c.cleanSession then
    (if c.onConnectSet then configured else [])
  else c.subscriptions

/-- Number of log lines carrying a given message. -/
def countMsg (logs : List LogEntry) (m : LogMsg) : Nat :=
  logs.countP (fun e => e.msg == m)

/-- Number of error-level log lines. -/
def countErrors (logs : List LogEntry) : Nat :=
  logs.countP (fun e => e.level == .error)

/-- Concrete inputs used to evaluate the model. -/
def msgBedroom : MQTTMessage := ⟨"home/bedroom", asciiBytes "42"⟩

def msgKitchen : MQTTMessage := ⟨"home/kitchen", asciiBytes "true"⟩

def msgBad : MQTTMessage := ⟨"home/bedroom", asciiBytes "not-json"⟩

def instMorning : Instant := ⟨2023, 12, 8, 10, 15, 0⟩

def instNight : Instant := ⟨2023, 12, 8, 23, 59, 59⟩

/-- Evaluation of `on_message` when the UTF-8 decode raises. -/
theorem on_message_decode_fail {d : List Nat → Option String}
    {p : String → Option Json} {ok : Bool} {m : MQTTMessage} {now : Instant}
    (hd : d m.payload = none) :
    on_message d p ok m now = ⟨[], [], some .decodeError⟩ := by
  simp [on_message, hd]

/-- Evaluation of `on_message` when the JSON parse raises. -/
theorem on_message_parse_fail {d : List Nat → Option String}
    {p : String → Option Json} {ok : Bool} {m : MQTTMessage} {now : Instant}
    {s : String} (hd : d m.payload = some s) (hp : p s = none) :
    on_message d p ok m now = ⟨[], [], some .jsonError⟩ := by
  simp [on_message, hd, hp]

/-- Evaluation of `on_message` when decode and parse succeed but the insert
fails. -/
theorem on_message_write_fail {d : List Nat → Option String}
    {p : String → Option Json} {m : MQTTMessage} {now : Instant}
    {s : String} {v : Json} (hd : d m.payload = some s) (hp : p s = some v) :
    on_message d p false m now = ⟨[], [], some .writeError⟩ := by
  simp [on_message, hd, hp]

/-- Evaluation of `on_message` on the all-success path. -/
theorem on_message_ok {d : List Nat → Option String}
    {p : String → Option Json} {m : MQTTMessage} {now : Instant}
    {s : String} {v : Json} (hd : d m.payload = some s) (hp : p s = some v) :
    on_message d p true m now =
      ⟨[(strftimeDate now,
         { topic := m.topic, date := strftimeDate now,
           time := strftimeTime now, payload := v })],
       [successRecord m.topic (strftimeTime now) s], none⟩ := by
  simp [on_message, hd, hp]

/-- Any document the handler inserts goes to the collection named by the
receipt date, and carries that same date in its `date` field. -/
theorem mem_inserted_eq {d : List Nat → Option String} {p : String → Option Json}
    {ok : Bool} {m : MQTTMessage} {now : Instant} {c : String} {doc : Document}
    (h : (c, doc) ∈ (on_message d p ok m now).inserted) :
    c = strftimeDate now ∧ doc.date = strftimeDate now := by
  cases hds : d m.payload with
  | none => rw [on_message_decode_fail hds] at h; simp at h
  | some s =>
    cases hps : p s with
    | none => rw [on_message_parse_fail hds hps] at h; simp at h
    | some v =>
      cases ok with
      | false => rw [on_message_write_fail hds hps] at h; simp at h
      | true =>
        rw [on_message_ok hds hps] at h
        simp only [List.mem_singleton, Prod.mk.injEq] at h
        obtain ⟨hc, hdoc⟩ := h
        subst hc
        subst hdoc
        exact ⟨rfl, rfl⟩

/-- C1: a message whose payload decodes as UTF-8 and parses as JSON, and
whose database write succeeds, produces exactly one document; its `payload`
is the decoded JSON value unchanged, its `topic` is the concrete receipt
topic unchanged, and its `date`/`time` are the strftime renderings of the
receipt instant.  The handler finishes without an exception. -/
theorem C1_valid_json_writes_one_exact_document
    (d : List Nat → Option String) (p : String → Option Json)
    (m : MQTTMessage) (now : Instant) (s : String) (v : Json)
    (hd : d m.payload = some s) (hp : p s = some v) :
    (on_message d p true m now).inserted =
      [(strftimeDate now,
        { topic := m.topic, date := strftimeDate now,
          time := strftimeTime now, payload := v })]
    ∧ (on_message d p true m now).exc = none := by
  simp [on_message, hd, hp]

/-- C1 witness: payload `42` on topic `home/bedroom` received at
2023-12-08 10:15:00. -/
theorem C1_valid_json_writes_one_exact_document_witness :
    (on_message decodeAscii parseJsonLit true msgBedroom instMorning).inserted =
      [(strftimeDate instMorning,
        { topic := msgBedroom.topic, date := strftimeDate instMorning,
          time := strftimeTime instMorning, payload := .num 42 })]
    ∧ (on_message decodeAscii parseJsonLit true msgBedroom instMorning).exc = none :=
  C1_valid_json_writes_one_exact_document decodeAscii parseJsonLit
    msgBedroom instMorning "42" (.num 42) (by decide) rfl

/-- C4: every persisted document's `date` field equals the name of the
collection it was inserted into. -/
theorem C4_date_field_equals_collection_name
    (d : List Nat → Option String) (p : String → Option Json)
    (ok : Bool) (m : MQTTMessage) (now : Instant) (c : String) (doc : Document)
    (h : (c, doc) ∈ (on_message d p ok m now).inserted) :
    doc.date = c :=
  ((mem_inserted_eq h).2).trans ((mem_inserted_eq h).1).symm

/-- The document produced for payload `42` on `home/bedroom` at
2023-12-08 10:15:00. -/
def docBedroom : Document :=
  { topic := "home/bedroom", date := strftimeDate instMorning,
    time := strftimeTime instMorning, payload := .num 42 }

/-- The document produced for payload `true` on `home/kitchen` at
2023-12-08 23:59:59. -/
def docKitchen : Document :=
  { topic := "home/kitchen", date := strftimeDate instNight,
    time := strftimeTime instNight, payload := .bool true }

/-- C4 witness: the concrete document stored for `msgBedroom` carries the
name of its collection in the `date` field. -/
theorem C4_date_field_equals_collection_name_witness :
    docBedroom.date = strftimeDate instMorning :=
  C4_date_field_equals_collection_name decodeAscii parseJsonLit true
    msgBedroom instMorning (strftimeDate instMorning) docBedroom
    (by rw [@on_message_ok decodeAscii parseJsonLit msgBedroom instMorning
              "42" (Json.num 42) (by decide) rfl]
        exact List.mem_singleton.mpr rfl)

/-- C8: the collection a stored message lands in is a function of the
receipt date alone — two deliveries with equal `strftime("%Y-%m-%d")`
renderings go to the same collection, whatever their topics, payloads,
decoders or write outcomes. -/
theorem C8_collection_depends_only_on_receipt_date
    (d1 d2 : List Nat → Option String) (p1 p2 : String → Option Json)
    (ok1 ok2 : Bool) (m1 m2 : MQTTMessage) (t1 t2 : Instant)
    (c1 c2 : String) (doc1 doc2 : Document)
    (h1 : (c1, doc1) ∈ (on_message d1 p1 ok1 m1 t1).inserted)
    (h2 : (c2, doc2) ∈ (on_message d2 p2 ok2 m2 t2).inserted)
    (hdate : strftimeDate t1 = strftimeDate t2) :
    c1 = c2 :=
  ((mem_inserted_eq h1).1.trans hdate).trans (mem_inserted_eq h2).1.symm

/-- C8 witness: a morning and a night delivery on 2023-12-08, different
topics and payloads, land in the same collection. -/
theorem C8_collection_depends_only_on_receipt_date_witness :
    strftimeDate instMorning = strftimeDate instNight :=
  C8_collection_depends_only_on_receipt_date decodeAscii decodeAscii
    parseJsonLit parseJsonLit true true msgBedroom msgKitchen
    instMorning instNight (strftimeDate instMorning) (strftimeDate instNight)
    docBedroom docKitchen
    (by rw [@on_message_ok decodeAscii parseJsonLit msgBedroom instMorning
              "42" (Json.num 42) (by decide) rfl]
        exact List.mem_singleton.mpr rfl)
    (by rw [@on_message_ok decodeAscii parseJsonLit msgKitchen instNight
              "true" (Json.bool true) (by decide) rfl]
        exact List.mem_singleton.mpr rfl)
    rfl

/-- C9: the handler emits its informational success record exactly when a
document was inserted (the counts agree), the handler raises exactly when
nothing was inserted, and a failed insert suppresses the success record —
the log call sits after `insert_one` and runs only if the insert
completed. -/
theorem C9_success_record_iff_insert_completed
    (d : List Nat → Option String) (p : String → Option Json)
    (ok : Bool) (m : MQTTMessage) (now : Instant) :
    (on_message d p ok m now).logs.length
        = (on_message d p ok m now).inserted.length
    ∧ (on_message d p ok m now).exc.isSome
        = (on_message d p ok m now).inserted.isEmpty
    ∧ (on_message d p false m now).logs = [] := by
  have key : ∀ b : Bool,
      (on_message d p b m now).logs.length
          = (on_message d p b m now).inserted.length
      ∧ (on_message d p b m now).exc.isSome
          = (on_message d p b m now).inserted.isEmpty := by
    intro b
    cases hds : d m.payload with
    | none => rw [on_message_decode_fail hds]; exact ⟨rfl, rfl⟩
    | some s =>
      cases hps : p s with
      | none => rw [on_message_parse_fail hds hps]; exact ⟨rfl, rfl⟩
      | some v =>
        cases b with
        | false => rw [on_message_write_fail hds hps]; exact ⟨rfl, rfl⟩
        | true => rw [on_message_ok hds hps]; exact ⟨rfl, rfl⟩
  refine ⟨(key ok).1, (key ok).2, ?_⟩
  cases hds : d m.payload with
  | none => rw [on_message_decode_fail hds]
  | some s =>
    cases hps : p s with
    | none => rw [on_message_parse_fail hds hps]
    | some v => rw [on_message_write_fail hds hps]

/-- C2 counterexample: for the ASCII payload `not-json` (valid UTF-8,
invalid JSON) the handler writes no document — but it also reports
nothing to the logging sink (zero lines, in particular not the one error
the claim requires), because the `json.loads` exception escapes the
uncaught handler instead of being handled. -/
theorem C2_counterexample_no_error_reported :
    (on_message decodeAscii parseJsonLit true msgBad instMorning).logs = []
    ∧ countErrors (on_message decodeAscii parseJsonLit true msgBad instMorning).logs ≠ 1
    ∧ (on_message decodeAscii parseJsonLit true msgBad instMorning).inserted = []
    ∧ (on_message decodeAscii parseJsonLit true msgBad instMorning).exc
        = some .jsonError :=
  ⟨rfl, by decide, rfl, rfl⟩

/-- C2 as amended: on a payload that is invalid UTF-8 or invalid JSON, no
document is written and nothing at all is reported to the logging sink;
the handler terminates with the decode or parse exception escaping it
(there is no try/except in `on_message`). -/
theorem C2_amended_malformed_dropped_without_report
    (d : List Nat → Option String) (p : String → Option Json)
    (ok : Bool) (m : MQTTMessage) (now : Instant)
    (h : d m.payload = none ∨ ∃ s, d m.payload = some s ∧ p s = none) :
    (on_message d p ok m now).inserted = []
    ∧ (on_message d p ok m now).logs = []
    ∧ ((on_message d p ok m now).exc = some .decodeError
        ∨ (on_message d p ok m now).exc = some .jsonError) := by
  rcases h with hd | ⟨s, hd, hp⟩
  · rw [on_message_decode_fail hd]; exact ⟨rfl, rfl, Or.inl rfl⟩
  · rw [on_message_parse_fail hd hp]; exact ⟨rfl, rfl, Or.inr rfl⟩

/-- C2 amended witness: the `not-json` payload at 2023-12-08 23:59:59. -/
theorem C2_amended_malformed_dropped_without_report_witness :
    (on_message decodeAscii parseJsonLit true msgBad instNight).inserted = []
    ∧ (on_message decodeAscii parseJsonLit true msgBad instNight).logs = []
    ∧ ((on_message decodeAscii parseJsonLit true msgBad instNight).exc
          = some .decodeError
        ∨ (on_message decodeAscii parseJsonLit true msgBad instNight).exc
          = some .jsonError) :=
  C2_amended_malformed_dropped_without_report decodeAscii parseJsonLit true
    msgBad instNight (Or.inr ⟨"not-json", by decide, rfl⟩)

/-- C3 counterexample: when the insert fails on the valid payload `42`, no
document is written — but no error is reported to the logging sink either
(zero lines, not the one the claim requires): the write exception escapes
the uncaught handler. -/
theorem C3_counterexample_write_failure_unreported :
    (on_message decodeAscii parseJsonLit false msgBedroom instMorning).inserted = []
    ∧ (on_message decodeAscii parseJsonLit false msgBedroom instMorning).logs = []
    ∧ countErrors (on_message decodeAscii parseJsonLit false msgBedroom instMorning).logs ≠ 1
    ∧ (on_message decodeAscii parseJsonLit false msgBedroom instMorning).exc
        = some .writeError :=
  ⟨rfl, rfl, by decide, rfl⟩

/-- C3 as amended: if the database write fails, no document is written and
the message is neither retried nor buffered, but nothing is reported to
the logging sink: the write exception escapes the handler uncaught. -/
theorem C3_amended_write_failure_uncaught
    (d : List Nat → Option String) (p : String → Option Json)
    (m : MQTTMessage) (now : Instant) (s : String) (v : Json)
    (hd : d m.payload = some s) (hp : p s = some v) :
    (on_message d p false m now).inserted = []
    ∧ (on_message d p false m now).logs = []
    ∧ (on_message d p false m now).exc = some .writeError := by
  rw [on_message_write_fail hd hp]; exact ⟨rfl, rfl, rfl⟩

/-- C3 amended witness: a failed insert of payload `true` from
`home/kitchen`. -/
theorem C3_amended_write_failure_uncaught_witness :
    (on_message decodeAscii parseJsonLit false msgKitchen instMorning).inserted = []
    ∧ (on_message decodeAscii parseJsonLit false msgKitchen instMorning).logs = []
    ∧ (on_message decodeAscii parseJsonLit false msgKitchen instMorning).exc
        = some .writeError :=
  C3_amended_write_failure_uncaught decodeAscii parseJsonLit msgKitchen
    instMorning "true" (.bool true) (by decide) rfl

/-- C7: `connect_to_mongodb` makes exactly one driver connection attempt
(one client creation) and always performs the `server_info()` liveness
round trip; it reports success exactly when that round trip succeeds,
and when the server is unreachable or selection times out it returns the
error outcome (`None` plus one error line) without retrying — the trace
contains no second attempt. -/
theorem C7_mongodb_open_liveness_check_no_retry (r : Bool) (cfg : Config) :
    (connect_to_mongodb r cfg).2.2 = [.clientCreate, .serverInfoPing]
    ∧ ((connect_to_mongodb r cfg).1).isSome = r
    ∧ countErrors (connect_to_mongodb r cfg).2.1 = (if r then 0 else 1)
    ∧ countMsg (connect_to_mongodb r cfg).2.1 .connectedMongo
        = (if r then 1 else 0) := by
  cases r <;>
    simp [connect_to_mongodb, countErrors, countMsg,
      List.countP_cons, List.countP_nil]

/-- The log lines emitted by the failed attempts of a retry loop: for each
failed outcome, the connect function's own lines followed by the retry
notice. -/
def failLogs {α H : Type} (connect : α → Option H × List LogEntry)
    (retryMsg : LogMsg) : List α → List LogEntry
  | [] => []
  | o :: os => (connect o).2 ++ ⟨.info, retryMsg⟩ :: failLogs connect retryMsg os

/-- A retry loop whose window ends at the first successful attempt returns
that attempt's handle and logs, preceded by the failure logs, with one
fixed 5-second sleep per failed attempt; outcomes after the success are
never examined. -/
theorem retryLoop_first_success {α H : Type}
    (connect : α → Option H × List LogEntry) (rm : LogMsg)
    (fails : List α) (hf : ∀ o ∈ fails, (connect o).1 = none)
    (good : α) (h : H) (glogs : List LogEntry)
    (hg : connect good = (some h, glogs)) (rest : List α) :
    retryLoop connect rm (fails ++ good :: rest)
      = some (h, failLogs connect rm fails ++ glogs,
              List.replicate fails.length 5) := by
  induction fails with
  | nil => simp [retryLoop, hg, failLogs]
  | cons o os ih =>
    have ho : connect o = (none, (connect o).2) :=
      Prod.ext (hf o (List.mem_cons_self o os)) rfl
    rw [List.cons_append, retryLoop, ho,
      ih (fun x hx => hf x (List.mem_cons_of_mem _ hx))]
    simp [failLogs, List.replicate_succ]

/-- A retry loop over failures only has not terminated. -/
theorem retryLoop_all_fail {α H : Type}
    (connect : α → Option H × List LogEntry) (rm : LogMsg)
    (fails : List α) (hf : ∀ o ∈ fails, (connect o).1 = none) :
    retryLoop connect rm fails = none := by
  induction fails with
  | nil => rfl
  | cons o os ih =>
    have ho : connect o = (none, (connect o).2) :=
      Prod.ext (hf o (List.mem_cons_self o os)) rfl
    rw [retryLoop, ho, ih (fun x hx => hf x (List.mem_cons_of_mem _ hx))]

/-- Failure logs contain no occurrence of a message that neither the retry
notice nor any failed attempt emits. -/
theorem countMsg_failLogs {α H : Type}
    (connect : α → Option H × List LogEntry) (rm m : LogMsg)
    (fails : List α) (h0 : ∀ o ∈ fails, countMsg (connect o).2 m = 0)
    (hrm : rm ≠ m) :
    countMsg (failLogs connect rm fails) m = 0 := by
  induction fails with
  | nil => rfl
  | cons o os ih =>
    have h1 := h0 o (List.mem_cons_self o os)
    have h2 := ih (fun x hx => h0 x (List.mem_cons_of_mem _ hx))
    simp only [failLogs, countMsg, List.countP_append, List.countP_cons] at *
    simp [h1, h2, hrm]

/-- The counter `countMsg` distributes over append. -/
theorem countMsg_append (l1 l2 : List LogEntry) (m : LogMsg) :
    countMsg (l1 ++ l2) m = countMsg l1 m + countMsg l2 m := by
  simp [countMsg, List.countP_append]

/-- C5: both startup loops retry with no attempt ceiling (any number `n`
of failures is survived) at the fixed constant interval of 5 seconds per
failure (the sleep trace is `replicate n 5`, never growing); each loop
terminates at the first successful connect — later outcomes are never
examined — and the full log trace carries the success transition exactly
once; over failures alone the loop has not exited. -/
theorem C5_startup_retry_fixed_interval_until_success
    (cfg : Config) (n : Nat) (restM : List Bool)
    (qfails : List MqttConnectOutcome) (hq : ∀ o ∈ qfails, o ≠ .ok)
    (restQ : List MqttConnectOutcome) :
    (mongoStartupLoop cfg (List.replicate n false ++ true :: restM)
        = some (⟨cfg.mongodbDatabase⟩,
            failLogs (mongoConnectFn cfg) .retryingMongo (List.replicate n false)
              ++ (connect_to_mongodb true cfg).2.1,
            List.replicate n 5))
    ∧ countMsg (failLogs (mongoConnectFn cfg) .retryingMongo (List.replicate n false)
          ++ (connect_to_mongodb true cfg).2.1) .connectedMongo = 1
    ∧ mongoStartupLoop cfg (List.replicate n false) = none
    ∧ (mqttStartupLoop cfg (qfails ++ .ok :: restQ)
        = some (initialMqttClient,
            failLogs (mqttConnectFn cfg) .retryingMqtt qfails
              ++ (connect_to_mqtt .ok cfg).2,
            List.replicate qfails.length 5))
    ∧ countMsg (failLogs (mqttConnectFn cfg) .retryingMqtt qfails
          ++ (connect_to_mqtt .ok cfg).2) .connectedMqtt = 1
    ∧ mqttStartupLoop cfg qfails = none := by
  have hmf : ∀ r ∈ List.replicate n false, (mongoConnectFn cfg r).1 = none := by
    intro r hr
    rw [List.eq_of_mem_replicate hr]
    rfl
  have hqf : ∀ o ∈ qfails, (mqttConnectFn cfg o).1 = none := by
    intro o ho
    cases o with
    | ok => exact absurd rfl (hq _ ho)
    | timeout => rfl
    | refused => rfl
  have hmg : mongoConnectFn cfg true
      = (some ⟨cfg.mongodbDatabase⟩, (connect_to_mongodb true cfg).2.1) := rfl
  have hqg : mqttConnectFn cfg .ok
      = (some initialMqttClient, (connect_to_mqtt .ok cfg).2) := rfl
  have hm0 : countMsg (failLogs (mongoConnectFn cfg) .retryingMongo
      (List.replicate n false)) .connectedMongo = 0 := by
    refine countMsg_failLogs _ _ _ _ ?_ (by decide)
    intro o ho
    rw [List.eq_of_mem_replicate ho]
    simp [mongoConnectFn, connect_to_mongodb, countMsg, List.countP_cons]
  have hq0 : countMsg (failLogs (mqttConnectFn cfg) .retryingMqtt qfails)
      .connectedMqtt = 0 := by
    refine countMsg_failLogs _ _ _ _ ?_ (by decide)
    intro o ho
    cases o with
    | ok => exact absurd rfl (hq _ ho)
    | timeout =>
        simp [mqttConnectFn, connect_to_mqtt, countMsg, List.countP_cons]
    | refused =>
        simp [mqttConnectFn, connect_to_mqtt, countMsg, List.countP_cons]
  have hm1 : countMsg (connect_to_mongodb true cfg).2.1 .connectedMongo = 1 := by
    simp [connect_to_mongodb, countMsg, List.countP_cons]
  have hq1 : countMsg (connect_to_mqtt .ok cfg).2 .connectedMqtt = 1 := by
    simp [connect_to_mqtt, countMsg, List.countP_cons]
  refine ⟨?_, ?_, ?_, ?_, ?_, ?_⟩
  · have h := retryLoop_first_success (mongoConnectFn cfg) .retryingMongo
      (List.replicate n false) hmf true ⟨cfg.mongodbDatabase⟩
      ((connect_to_mongodb true cfg).2.1) hmg restM
    simpa [mongoStartupLoop] using h
  · rw [countMsg_append, hm0, hm1]
  · exact retryLoop_all_fail _ _ _ hmf
  · have h := retryLoop_first_success (mqttConnectFn cfg) .retryingMqtt
      qfails hqf .ok initialMqttClient ((connect_to_mqtt .ok cfg).2) hqg restQ
    simpa [mqttStartupLoop] using h
  · rw [countMsg_append, hq0, hq1]
  · exact retryLoop_all_fail _ _ _ hqf

/-- C5 witness: two failed MongoDB attempts then success; the MQTT loop
still running after a timeout and a refusal. -/
theorem C5_startup_retry_fixed_interval_until_success_witness :
    (mongoStartupLoop defaultConfig [false, false, true]
        = some (⟨"mqtt_logs"⟩,
            failLogs (mongoConnectFn defaultConfig) .retryingMongo
              (List.replicate 2 false)
              ++ (connect_to_mongodb true defaultConfig).2.1,
            List.replicate 2 5))
    ∧ mqttStartupLoop defaultConfig [.timeout, .refused] = none := by
  have h := C5_startup_retry_fixed_interval_until_success defaultConfig 2 []
    [.timeout, .refused] (by decide) []
  exact ⟨h.1, h.2.2.2.2.2⟩

/-- A retry loop only ever returns a handle some attempt's connect call
produced — it cannot exit with a `None` handle. -/
theorem retryLoop_some_handle {α H : Type}
    {connect : α → Option H × List LogEntry} {rm : LogMsg}
    {outcomes : List α} {h : H} {logs : List LogEntry} {sleeps : List Nat}
    (hr : retryLoop connect rm outcomes = some (h, logs, sleeps)) :
    ∃ o, (connect o).1 = some h := by
  induction outcomes generalizing logs sleeps with
  | nil => exact absurd hr (by rw [retryLoop]; exact Option.noConfusion)
  | cons o os ih =>
    rw [retryLoop] at hr
    cases hco : connect o with
    | mk oh ologs =>
      rw [hco] at hr
      cases oh with
      | some h2 =>
        simp only [Option.some.injEq, Prod.mk.injEq] at hr
        obtain ⟨hh, -, -⟩ := hr
        exact ⟨o, by rw [hco, hh]⟩
      | none =>
        cases hrl : retryLoop connect rm os with
        | none => rw [hrl] at hr; exact absurd hr Option.noConfusion
        | some trip =>
          obtain ⟨h2, l2, s2⟩ := trip
          rw [hrl] at hr
          simp only [Option.some.injEq, Prod.mk.injEq] at hr
          obtain ⟨hh, -, -⟩ := hr
          subst hh
          exact ih hrl

/-- Characterization of a completed startup: the database handle addresses
the configured database, and the client entering the receive loop is the
clean-session client with exactly the configured subscriptions, the
userdata `{"db": db, "logger": logger}`, `on_message` set, and no
on-connect callback. -/
theorem main_startup_some_state {cfg : Config} {mos : List Bool}
    {qos : List MqttConnectOutcome} {st : SupervisorState}
    (h : main_startup cfg mos qos = some st) :
    st.db = ⟨cfg.mongodbDatabase⟩
    ∧ st.client = { clientId := "mongodb_logger", cleanSession := true,
                    onConnectSet := false, subscriptions := cfg.mqttTopics,
                    userdata := some ⟨st.db, true⟩, onMessageSet := true } := by
  unfold main_startup at h
  cases hm : mongoStartupLoop cfg mos with
  | none => rw [hm] at h; exact absurd h Option.noConfusion
  | some tripM =>
    obtain ⟨db, logsM, sleepsM⟩ := tripM
    rw [hm] at h
    cases hq : mqttStartupLoop cfg qos with
    | none => rw [hq] at h; exact absurd h Option.noConfusion
    | some tripQ =>
      obtain ⟨client, logsQ, sleepsQ⟩ := tripQ
      rw [hq] at h
      have hdb : db = ⟨cfg.mongodbDatabase⟩ := by
        obtain ⟨r, hro⟩ := retryLoop_some_handle hm
        cases r with
        | false => exact absurd hro Option.noConfusion
        | true => exact (Option.some.injEq _ _ ▸ hro).symm
      have hcl : client = initialMqttClient := by
        obtain ⟨o, ho⟩ := retryLoop_some_handle hq
        cases o with
        | ok => exact (Option.some.injEq _ _ ▸ ho).symm
        | timeout => exact absurd ho Option.noConfusion
        | refused => exact absurd ho Option.noConfusion
      subst hdb
      subst hcl
      simp only [Option.some.injEq] at h
      subst h
      exact ⟨rfl, rfl⟩

/-- C10: whenever the supervisor reaches `loop_forever()`, both retry
loops have produced real handles (each exits only on a non-`None`
connect result), and the context the message handler will read is fully
populated: the userdata holds the database handle and the logger, and the
`on_message` callback is installed. -/
theorem C10_receive_loop_context_complete
    (cfg : Config) (mos : List Bool) (qos : List MqttConnectOutcome)
    (st : SupervisorState) (h : main_startup cfg mos qos = some st) :
    st.client.userdata = some ⟨st.db, true⟩
    ∧ st.client.onMessageSet = true
    ∧ st.db = ⟨cfg.mongodbDatabase⟩ := by
  obtain ⟨hdb, hcl⟩ := main_startup_some_state h
  rw [hcl]
  exact ⟨rfl, rfl, hdb⟩

/-- The supervisor state after a startup whose first attempt succeeds on
both dependencies, under the default configuration. -/
def startupState : SupervisorState :=
  ⟨⟨"mqtt_logs"⟩,
   { clientId := "mongodb_logger", cleanSession := true,
     onConnectSet := false, subscriptions := ["#"],
     userdata := some ⟨⟨"mqtt_logs"⟩, true⟩, onMessageSet := true }⟩

/-- C10 witness: a first-attempt-success startup with the default
configuration. -/
theorem C10_receive_loop_context_complete_witness :
    startupState.client.userdata = some ⟨startupState.db, true⟩
    ∧ startupState.client.onMessageSet = true
    ∧ startupState.db = ⟨defaultConfig.mongodbDatabase⟩ :=
  C10_receive_loop_context_complete defaultConfig [true] [.ok] startupState
    (by decide)

/-- C6 counterexample: under the default configuration (topic filter `#`),
after a completed startup the session holds the configured subscription,
but a drop-and-reconnect of the clean session leaves the subscription set
empty — the configured subscriptions are NOT re-issued after a successful
reconnect, because the script never registers an on-connect callback and
subscribes only once, before `loop_forever()`. -/
theorem C6_counterexample_reconnect_loses_subscriptions :
    (main_startup defaultConfig [true] [.ok]).map
        (fun st => subscriptionsAfterReconnect st.client defaultConfig.mqttTopics)
      = some []
    ∧ defaultConfig.mqttTopics ≠ []
    ∧ (main_startup defaultConfig [true] [.ok]).map
        (fun st => st.client.subscriptions) = some defaultConfig.mqttTopics := by
  decide

/-- C6 as amended: the configured subscriptions are issued exactly once,
at startup, before the receive loop is entered; the session is opened
clean and no on-connect callback is registered, so after any
dropped-and-restored session the subscription set is empty — nothing is
re-issued on reconnect. -/
theorem C6_amended_subscribe_once_no_resubscription
    (cfg : Config) (mos : List Bool) (qos : List MqttConnectOutcome)
    (st : SupervisorState) (h : main_startup cfg mos qos = some st) :
    st.client.subscriptions = cfg.mqttTopics
    ∧ st.client.cleanSession = true
    ∧ st.client.onConnectSet = false
    ∧ subscriptionsAfterReconnect st.client cfg.mqttTopics = [] := by
  obtain ⟨hdb, hcl⟩ := main_startup_some_state h
  rw [hcl]
  exact ⟨rfl, rfl, rfl, rfl⟩

/-- C6 amended witness: the default-configuration startup. -/
theorem C6_amended_subscribe_once_no_resubscription_witness :
    startupState.client.subscriptions = defaultConfig.mqttTopics
    ∧ startupState.client.cleanSession = true
    ∧ startupState.client.onConnectSet = false
    ∧ subscriptionsAfterReconnect startupState.client defaultConfig.mqttTopics
        = [] :=
  C6_amended_subscribe_once_no_resubscription defaultConfig [true] [.ok]
    startupState (by decide)
